import Mathlib

/-!
Verification of the `apple_foundation` Python package (files
`src/apple_foundation/foundation.py` and `src/apple_foundation/transcription.py`)
via a shallow embedding in Lean.

External effects (filesystem, subprocesses, the Python `json` module's parser)
are made explicit: each embedded operation takes the observations it would make
of the outside world (does a file exist, what a spawned process returned, what
`json.loads` yields on a string) as arguments, and returns both the effects it
performs and its outcome.  Machine behaviour that the code only passes through
as text (e.g. `str(temperature)` on a float) is embedded as the string itself.
-/

/-- A JSON value, embedding the Python dicts/lists/strings the package
manipulates.  Objects keep insertion order, as Python dicts do. -/
inductive Json where
  | null
  | bool (b : Bool)
  | num (n : Int)
  | str (s : String)
  | arr (elems : List Json)
  | obj (fields : List (String × Json))
  deriving Repr, Inhabited

/-- Embedding of Python's `json.dumps` with default separators.  The schemas
serialized by this package contain no characters requiring escapes, so string
escaping is the identity here. -/
def Json.dumps : Json → String
  | .null => "null"
  | .bool true => "true"
  | .bool false => "false"
  | .num n => toString n
  | .str s => "\"" ++ s ++ "\""
  | .arr elems => "[" ++ ", ".intercalate (elems.attach.map fun e => Json.dumps e.1) ++ "]"
  | .obj fields =>
      "\x7b" ++
        ", ".intercalate
          (fields.attach.map fun f => "\"" ++ f.1.1 ++ "\": " ++ Json.dumps f.1.2) ++
      "\x7d"
decreasing_by
  · have h := List.sizeOf_lt_of_mem e.2
    simp only [Json.arr.sizeOf_spec]
    omega
  · have h := List.sizeOf_lt_of_mem f.2
    obtain ⟨⟨k, v⟩, hm⟩ := f
    simp only [Prod.mk.sizeOf_spec] at h
    simp only [Json.obj.sizeOf_spec]
    omega

/-- Field access on a JSON object (Python's `d[k]` / `d.get(k)`), first match. -/
def Json.getField : Json → String → Option Json
  | .obj fields, k => fields.lookup k
  | _, _ => none

/-- An OpenAI-style tool definition: the fields of the `"function"` member that
the conversion reads (`tests/test_tools.py` passes
`{"type": "function", "function": {"name": ..., "description": ..., "parameters": ...}}`). -/
structure ToolDef where
  name : String
  description : Option String
  parameters : Json
  deriving Repr

/-- Modelled from the spec: one `anyOf` variant of the converted schema
(`_convert_tools_to_schema` is absent from `foundation.py`; only
`tests/test_tools.py` and spec §4.3 describe it).  An object schema whose
`function` property is constrained to the tool's name by `const` and whose
`arguments` property is the tool's parameter schema verbatim. -/
def toolVariant (t : ToolDef) : Json :=
  .obj
    [("type", .str "object"),
     ("properties",
       .obj
         [("function", .obj [("type", .str "string"), ("const", .str t.name)]),
          ("arguments", t.parameters)]),
     ("required", .arr [.str "function", .str "arguments"])]

/-- Modelled from the spec: `_convert_tools_to_schema`, absent from
`foundation.py` (only `tests/test_tools.py` imports it; spec §4.3 specifies
it).  Empty mapping for an empty or absent tool list; otherwise an object with
the single key `anyOf` holding one variant per tool, in input order. -/
def convert_tools_to_schema : Option (List ToolDef) → Json
  | none => .obj []
  | some [] => .obj []
  | some tools => .obj [("anyOf", .arr (tools.map toolVariant))]

/-- The `const` under `properties.function` of a variant, as read by
`tests/test_tools.py`. -/
def variantFunctionConst (v : Json) : Option Json :=
  match v.getField "properties" with
  | some p =>
    match p.getField "function" with
    | some f => f.getField "const"
    | none => none
  | none => none

/-- The `arguments` member under `properties` of a variant. -/
def variantArguments (v : Json) : Option Json :=
  match v.getField "properties" with
  | some p => p.getField "arguments"
  | none => none

/-- Python's `a or b` on optional strings: `a` when it is a non-empty string
(truthy), else `b`. -/
def pyOr (a b : Option String) : Option String :=
  match a with
  | some s => if s = "" then b else some s
  | none => b

/-- Python's `s.replace("_", "-")`. -/
def replaceUnderscores (s : String) : String :=
  String.mk (s.data.map fun c => if c = '_' then '-' else c)

/-- Python's `s.strip()`: drop leading and trailing whitespace. -/
def pyStrip (s : String) : String :=
  String.mk (((s.data.dropWhile Char.isWhitespace).reverse.dropWhile Char.isWhitespace).reverse)

/-- `generate`'s keyword arguments (`foundation.py` lines 76-89), in source
order.  Float-valued options (`temperature`, `top_p`) are embedded by the
string `str(x)` that is the only use the code makes of them; int-valued
options keep `Int` (Python's `str` agrees with `toString`). -/
structure GenOptions where
  prompt : String
  temperature : Option String
  max_tokens : Option Int
  schema : Option Json
  system_prompt : Option String
  instructions : Option String
  sampling_mode : Option String
  top_k : Option Int
  top_p : Option String
  seed : Option Int
  model : Option String
  use_case : Option String
  guardrails : Option String
  deriving Repr

/-- `if temperature is not None: cmd.extend(["--temperature", str(temperature)])` -/
def tempArgs : Option String → List String
  | some t => ["--temperature", t]
  | none => []

/-- `if max_tokens is not None: cmd.extend(["--max-tokens", str(max_tokens)])` -/
def maxTokensArgs : Option Int → List String
  | some n => ["--max-tokens", toString n]
  | none => []

/-- `if schema is not None: cmd.extend(["--json-schema", json.dumps(schema)])` -/
def schemaArgs : Option Json → List String
  | some s => ["--json-schema", Json.dumps s]
  | none => []

/-- `if final_system_prompt: cmd.extend(["--system-prompt", final_system_prompt])`
(truthiness: an empty string adds nothing). -/
def systemPromptArgs : Option String → List String
  | some s => if s = "" then [] else ["--system-prompt", s]
  | none => []

/-- `if sampling_mode: cmd.extend(["--sampling", sampling_mode.replace("_", "-")])` -/
def samplingArgs : Option String → List String
  | some m => if m = "" then [] else ["--sampling", replaceUnderscores m]
  | none => []

/-- `if top_k is not None: cmd.extend(["--top-k", str(top_k)])` -/
def topKArgs : Option Int → List String
  | some n => ["--top-k", toString n]
  | none => []

/-- `if top_p is not None: cmd.extend(["--top-p", str(top_p)])` -/
def topPArgs : Option String → List String
  | some p => ["--top-p", p]
  | none => []

/-- `if seed is not None: cmd.extend(["--seed", str(seed)])` -/
def seedArgs : Option Int → List String
  | some n => ["--seed", toString n]
  | none => []

/-- `if final_model: cmd.extend(["--model", final_model.replace("_", "-")])` -/
def modelArgs : Option String → List String
  | some m => if m = "" then [] else ["--model", replaceUnderscores m]
  | none => []

/-- `if guardrails: cmd.extend(["--guardrails", guardrails])` -/
def guardrailsArgs : Option String → List String
  | some g => if g = "" then [] else ["--guardrails", g]
  | none => []

/-- The command list built by `generate` (`foundation.py` lines 119-157):
alias resolution `final_system_prompt = instructions or system_prompt`,
`final_model = use_case or model`, then the conditional flag appends in
source order. -/
def buildGenerateCmd (bin : String) (o : GenOptions) : List String :=
  [bin, o.prompt]
    ++ tempArgs o.temperature
    ++ maxTokensArgs o.max_tokens
    ++ schemaArgs o.schema
    ++ systemPromptArgs (pyOr o.instructions o.system_prompt)
    ++ samplingArgs o.sampling_mode
    ++ topKArgs o.top_k
    ++ topPArgs o.top_p
    ++ seedArgs o.seed
    ++ modelArgs (pyOr o.use_case o.model)
    ++ guardrailsArgs o.guardrails

/-- `o` with its `schema` field replaced. -/
def GenOptions.withSchema (o : GenOptions) (s : Option Json) : GenOptions :=
  ⟨o.prompt, o.temperature, o.max_tokens, s, o.system_prompt, o.instructions,
   o.sampling_mode, o.top_k, o.top_p, o.seed, o.model, o.use_case, o.guardrails⟩

/-- `o` with its `system_prompt` field replaced. -/
def GenOptions.withSystemPrompt (o : GenOptions) (s : Option String) : GenOptions :=
  ⟨o.prompt, o.temperature, o.max_tokens, o.schema, s, o.instructions,
   o.sampling_mode, o.top_k, o.top_p, o.seed, o.model, o.use_case, o.guardrails⟩

/-- `o` with its `model` field replaced. -/
def GenOptions.withModel (o : GenOptions) (m : Option String) : GenOptions :=
  ⟨o.prompt, o.temperature, o.max_tokens, o.schema, o.system_prompt, o.instructions,
   o.sampling_mode, o.top_k, o.top_p, o.seed, m, o.use_case, o.guardrails⟩

/-- Modelled from the spec: `generate`'s `tools` parameter, absent from
`foundation.py` (only `tests/test_tools.py` passes it; spec §4.2 specifies
"if a tool list is supplied, it is converted (§4.3) into a schema and that
schema — not any separately supplied schema — drives the `--json-schema`
flag").  A non-empty tool list replaces the `schema` argument by the
converted schema; an empty or absent one leaves the call unchanged. -/
def buildGenerateCmdWithTools (bin : String) (o : GenOptions)
    (tools : Option (List ToolDef)) : List String :=
  match tools with
  | some ts =>
    if ts.isEmpty then buildGenerateCmd bin o
    else buildGenerateCmd bin (o.withSchema (some (convert_tools_to_schema (some ts))))
  | none => buildGenerateCmd bin o

/-- What `subprocess.run(cmd, capture_output=True, text=True)` hands back:
exit status and captured output/error text. -/
structure ProcResult where
  returncode : Int
  stdout : String
  stderr : String
  deriving Repr, DecidableEq

/-- What a call to `generate` or to synchronous `transcribe` produces: a plain
string return, a parsed-JSON return, or a raised `RuntimeError` /
`FileNotFoundError` with its message. -/
inductive Outcome where
  | text (s : String)
  | json (v : Json)
  | runtimeError (msg : String)
  | fileNotFoundError (msg : String)
  deriving Repr

/-- The tail of `generate` (`foundation.py` lines 160-175): non-zero exit
raises `RuntimeError(f"Generation failed: {result.stderr or 'Unknown error'}")`;
otherwise `output = result.stdout.strip()` is returned, after an attempted
`json.loads` (falling back to the raw string) when a schema was given.
`loads` embeds Python's `json.loads`, `none` meaning `JSONDecodeError`. -/
def generateDecode (loads : String → Option Json) (schemaGiven : Bool)
    (r : ProcResult) : Outcome :=
  if r.returncode ≠ 0 then
    .runtimeError ("Generation failed: " ++ (if r.stderr = "" then "Unknown error" else r.stderr))
  else
    let output := pyStrip r.stdout
    if schemaGiven then
      match loads output with
      | some v => .json v
      | none => .text output
    else .text output

/-- The synchronous tail of `transcribe` (`transcription.py` lines 90-109):
non-zero exit raises `RuntimeError(f"Transcription failed: {result.stderr or
'Unknown error'}")`; otherwise `output = result.stdout.strip()`, and with
`full_metadata` a `json.loads` failure raises
`RuntimeError(f"Failed to parse JSON output: {output}")`. -/
def transcribeDecode (loads : String → Option Json) (full_metadata : Bool)
    (r : ProcResult) : Outcome :=
  if r.returncode ≠ 0 then
    .runtimeError ("Transcription failed: " ++ (if r.stderr = "" then "Unknown error" else r.stderr))
  else
    let output := pyStrip r.stdout
    if full_metadata then
      match loads output with
      | some v => .json v
      | none => .runtimeError ("Failed to parse JSON output: " ++ output)
    else .text output

/-- One value yielded by the streaming iterator: a raw line or a parsed JSON
record. -/
inductive StreamItem where
  | text (s : String)
  | json (v : Json)
  deriving Repr

/-- The per-line body of `result_iterator` (`transcription.py` lines 71-80)
applied to the finite list of lines `process.stdout` produces: each line is
stripped, then yielded raw (`full_metadata=False`) or `json.loads`-parsed and
yielded on success / silently skipped on failure (`full_metadata=True`). -/
def result_iterator (loads : String → Option Json) (full_metadata : Bool)
    (lines : List String) : List StreamItem :=
  lines.filterMap fun line =>
    let l := pyStrip line
    if full_metadata then (loads l).map StreamItem.json
    else some (StreamItem.text l)

/-- The tail of `result_iterator` (`transcription.py` lines 82-85), run after
the line source is exhausted: `process.wait()`, then a non-zero
`process.returncode` raises `RuntimeError(f"Transcription failed: {error_msg}")`
with `error_msg = process.stderr.read() if process.stderr else "Unknown
error"`.  The `Popen` call pipes stderr, so `process.stderr` is a (truthy)
pipe object and `error_msg` is the buffered stderr text — even when that text
is empty. -/
def streamFinal (returncode : Int) (stderrText : String) : Option String :=
  if returncode ≠ 0 then some ("Transcription failed: " ++ stderrText) else none

/-- The filesystem and toolchain observations `_get_binary`/`_compile_binary`
make for one logical binary name: whether `~/.cache/apple-foundation/bin/name`
and `swift/name.swift` exist, their mtimes (meaningful only when the file
exists), whether spawning `swiftc` succeeds (`False` embeds the
`FileNotFoundError` for a missing compiler), and the compiler run's result. -/
structure ResolverWorld where
  binaryExists : Bool
  binaryMtime : Int
  sourceExists : Bool
  sourceMtime : Int
  swiftcPresent : Bool
  compileResult : ProcResult
  deriving Repr, DecidableEq

/-- What the binary resolver does: return a path, or raise one of its three
error conditions with its message. -/
inductive ResolveResult where
  | ok (path : String)
  | sourceNotFound (msg : String)
  | compilationFailed (msg : String)
  | toolchainMissing (msg : String)
  deriving Repr, DecidableEq

/-- The path `_get_cache_dir() / name` is returned as; the user-specific cache
directory is embedded as an abstract prefix. -/
def binaryPath (name : String) : String :=
  "~/.cache/apple-foundation/bin/" ++ name

/-- The path `_get_swift_source_dir() / (name + ".swift")`. -/
def sourcePath (name : String) : String :=
  "swift/" ++ name ++ ".swift"

/-- `_compile_binary` (`foundation.py` lines 27-57): missing source raises
`FileNotFoundError(f"Swift source not found: {source_path}")`; a cached binary
at least as new as the source is returned as-is; then `swiftc` is run —
its absence raises the "Swift compiler not found" `RuntimeError`, a non-zero
exit raises `RuntimeError(f"Failed to compile {name}.swift: {e.stderr}")`,
and success returns the binary path. -/
def compile_binary (w : ResolverWorld) (name : String) : ResolveResult :=
  if ¬ w.sourceExists then
    .sourceNotFound ("Swift source not found: " ++ sourcePath name)
  else if w.binaryExists ∧ w.binaryMtime ≥ w.sourceMtime then
    .ok (binaryPath name)
  else if ¬ w.swiftcPresent then
    .toolchainMissing
      ("Swift compiler not found. Install Xcode command line tools: xcode-select --install")
  else if w.compileResult.returncode ≠ 0 then
    .compilationFailed ("Failed to compile " ++ name ++ ".swift: " ++ w.compileResult.stderr)
  else
    .ok (binaryPath name)

/-- `_get_binary` (`foundation.py` lines 60-73): an existing cached binary is
returned directly unless the source exists and is strictly newer (recompile);
a missing binary is compiled on first use. -/
def get_binary (w : ResolverWorld) (name : String) : ResolveResult :=
  if w.binaryExists then
    if w.sourceExists ∧ w.sourceMtime > w.binaryMtime then compile_binary w name
    else .ok (binaryPath name)
  else compile_binary w name

/-- The observable side effects a call performs, in order: the
`input_file.exists()` check, the `_get_binary` call, and the spawning of a
child process with a command line. -/
inductive Effect where
  | checkExists (path : String)
  | resolveBinary (name : String)
  | spawn (cmd : List String)
  deriving Repr, DecidableEq

/-- The command list built by `transcribe` (`transcription.py` lines 47-58). -/
def buildTranscribeCmd (bin : String) (input_path : String) (locale : String)
    (stream : Bool) (fast : Bool) (redact : Bool) (full_metadata : Bool) :
    List String :=
  [bin, input_path, "--locale", locale]
    ++ (if stream then ["--stream"] else [])
    ++ (if fast then ["--fast"] else [])
    ++ (if redact then ["--redact"] else [])
    ++ (if full_metadata then ["--json", "--confidence", "--alternatives"] else [])

/-- What one `transcribe` call returns or raises: a synchronous outcome, a
streaming iterator (its yielded items and the error, if any, raised after
exhaustion), or a propagated resolver error. -/
inductive CallReturn where
  | value (o : Outcome)
  | stream (items : List StreamItem) (finalErr : Option String)
  | resolveError (e : ResolveResult)
  deriving Repr

/-- The outside world one `transcribe` call observes: the input-path existence
check, the resolver's world, the synchronous run's result, and (in streaming
mode) the child's stdout lines, final exit status and buffered stderr. -/
structure TranscribeWorld where
  fileExists : Bool
  resolver : ResolverWorld
  runResult : ProcResult
  streamLines : List String
  streamReturncode : Int
  streamStderr : String
  deriving Repr

/-- `transcribe` (`transcription.py` lines 17-109) with its effects made
explicit: the existence check on `input_path` comes first and a missing file
raises `FileNotFoundError(f"Input file not found: {input_path}")` before
anything else; then `_get_binary("transcribe")` runs (errors propagate); then
the command is built and one child process is spawned, consumed either
streaming or synchronously. -/
def transcribe (loads : String → Option Json) (w : TranscribeWorld)
    (input_path : String) (locale : String) (stream : Bool) (fast : Bool)
    (redact : Bool) (full_metadata : Bool) : List Effect × CallReturn :=
  if ¬ w.fileExists then
    ([.checkExists input_path],
     .value (.fileNotFoundError ("Input file not found: " ++ input_path)))
  else
    match get_binary w.resolver "transcribe" with
    | .ok bin =>
      let cmd := buildTranscribeCmd bin input_path locale stream fast redact full_metadata
      if stream then
        ([.checkExists input_path, .resolveBinary "transcribe", .spawn cmd],
         .stream (result_iterator loads full_metadata w.streamLines)
                 (streamFinal w.streamReturncode w.streamStderr))
      else
        ([.checkExists input_path, .resolveBinary "transcribe", .spawn cmd],
         .value (transcribeDecode loads full_metadata w.runResult))
    | e =>
      ([.checkExists input_path, .resolveBinary "transcribe"], .resolveError e)

/-- The outside world one `generate` call observes. -/
structure GenerateWorld where
  resolver : ResolverWorld
  runResult : ProcResult
  deriving Repr

/-- `generate` (`foundation.py` lines 76-175) with its effects made explicit:
`_get_binary("generate")` (errors propagate), then one child process spawned
with the built command, then result decoding. -/
def generate (loads : String → Option Json) (w : GenerateWorld) (o : GenOptions) :
    List Effect × CallReturn :=
  match get_binary w.resolver "generate" with
  | .ok bin =>
    let cmd := buildGenerateCmd bin o
    ([.resolveBinary "generate", .spawn cmd],
     .value (generateDecode loads o.schema.isSome w.runResult))
  | e => ([.resolveBinary "generate"], .resolveError e)

/-- The parameter schema of the sample tool in `tests/test_tools.py`. -/
def weatherParams : Json :=
  .obj
    [("type", .str "object"),
     ("properties",
       .obj
         [("location", .obj [("type", .str "string")]),
          ("unit", .obj [("type", .str "string"),
                         ("enum", .arr [.str "celsius", .str "fahrenheit"])])]),
     ("required", .arr [.str "location"])]

/-- The sample tool of `tests/test_tools.py`. -/
def weatherTool : ToolDef := ⟨"get_weather", some "Get current weather", weatherParams⟩

/-- A second sample tool (`func_b` of `tests/test_tools.py`). -/
def funcBTool : ToolDef := ⟨"func_b", none, .obj []⟩

/-- A `json.loads` on which every string fails to parse. -/
def loadsNone : String → Option Json := fun _ => none

/-- A `json.loads` on which every string parses (to a JSON string). -/
def loadsAsStr : String → Option Json := fun s => some (.str s)

/-- Claim C5 as stated: for every name with no Swift source the resolver
raises "source not found"; when the build step runs, a missing compiler
raises "toolchain missing" and a non-zero build raises "compilation failed"
with the compiler's diagnostics. -/
def runsBuildStep (w : ResolverWorld) : Prop :=
  (w.binaryExists = false ∨ (w.sourceExists = true ∧ w.sourceMtime > w.binaryMtime)) ∧
  w.sourceExists = true ∧
  ¬ (w.binaryExists = true ∧ w.binaryMtime ≥ w.sourceMtime)

/-- Claim C5, as stated. -/
def claimC5 : Prop :=
  ∀ (w : ResolverWorld) (name : String),
    (w.sourceExists = false → ∃ m, get_binary w name = .sourceNotFound m) ∧
    (runsBuildStep w → w.swiftcPresent = false →
      get_binary w name =
        .toolchainMissing
          ("Swift compiler not found. Install Xcode command line tools: xcode-select --install")) ∧
    (runsBuildStep w → w.swiftcPresent = true → w.compileResult.returncode ≠ 0 →
      get_binary w name =
        .compilationFailed
          ("Failed to compile " ++ name ++ ".swift: " ++ w.compileResult.stderr))

/-- A world in which the cached binary exists but its Swift source does not. -/
def cachedNoSourceWorld : ResolverWorld := ⟨true, 10, false, 0, true, ⟨0, "", ""⟩⟩

/-- Claim C6 as stated: every non-zero exit, on all three paths, produces a
message holding the stderr text when non-empty and the generic
"Unknown error" fallback when empty. -/
def claimC6 : Prop :=
  ∀ (loads : String → Option Json) (sg fm : Bool) (r : ProcResult) (rc : Int) (e : String),
    (r.returncode ≠ 0 →
      generateDecode loads sg r =
        .runtimeError
          ("Generation failed: " ++ (if r.stderr = "" then "Unknown error" else r.stderr)) ∧
      transcribeDecode loads fm r =
        .runtimeError
          ("Transcription failed: " ++ (if r.stderr = "" then "Unknown error" else r.stderr))) ∧
    (rc ≠ 0 →
      streamFinal rc e =
        some ("Transcription failed: " ++ (if e = "" then "Unknown error" else e)))

/-- Generation options with both a canonical option and its alias set:
`system_prompt="A"`, `instructions="B"`, `model="x"`, `use_case="y"`, and a
sampling mode `top_k`, as in spec §8's examples. -/
def aliasSampleOpts : GenOptions :=
  ⟨"hello", none, none, none, some "A", some "B", some "top_k", none, none, none,
   some "x", some "y", none⟩


/-- C1: for every list of tool definitions of length n, the tool-to-schema
conversion returns an object whose single key `anyOf` holds exactly n
variants in input order, the i-th variant's `function` property constrained
by `const` to the i-th tool's name and its `arguments` property being the
i-th tool's parameter schema verbatim; an empty or absent tool list converts
to the empty mapping. -/
theorem c1_tool_schema_conversion (tools : List ToolDef) (h : tools ≠ []) :
    convert_tools_to_schema none = Json.obj [] ∧
    convert_tools_to_schema (some []) = Json.obj [] ∧
    ∃ variants : List Json,
      convert_tools_to_schema (some tools) = Json.obj [("anyOf", Json.arr variants)] ∧
      variants.length = tools.length ∧
      ∀ i, (hi : i < tools.length) →
        ∃ v t, variants[i]? = some v ∧ tools[i]? = some t ∧
          variantFunctionConst v = some (Json.str t.name) ∧
          variantArguments v = some t.parameters := by
  refine ⟨rfl, rfl, tools.map toolVariant, ?_, by simp, ?_⟩
  · cases tools with
    | nil => exact absurd rfl h
    | cons a l => rfl
  · intro i hi
    refine ⟨toolVariant (tools.get ⟨i, hi⟩), tools.get ⟨i, hi⟩, ?_, ?_, rfl, rfl⟩
    · simp [List.getElem?_eq_getElem, hi]
    · simp [List.getElem?_eq_getElem, hi]

/-- Witness for C1 at the two sample tools of `tests/test_tools.py`. -/
theorem c1_witness :
    [weatherTool, funcBTool] ≠ ([] : List ToolDef) ∧
    (convert_tools_to_schema none = Json.obj [] ∧
     convert_tools_to_schema (some []) = Json.obj [] ∧
     ∃ variants : List Json,
       convert_tools_to_schema (some [weatherTool, funcBTool]) =
         Json.obj [("anyOf", Json.arr variants)] ∧
       variants.length = [weatherTool, funcBTool].length ∧
       ∀ i, (hi : i < [weatherTool, funcBTool].length) →
         ∃ v t, variants[i]? = some v ∧ [weatherTool, funcBTool][i]? = some t ∧
           variantFunctionConst v = some (Json.str t.name) ∧
           variantArguments v = some t.parameters) :=
  ⟨by simp, c1_tool_schema_conversion [weatherTool, funcBTool] (by simp)⟩

/-- C2: for every generation call with a non-empty tool list, the value after
`--json-schema` in the built command is the serialization of the schema
converted from the tool list — the command equals the one built with the
converted schema substituted for any separately supplied `schema`. -/
theorem c2_tools_drive_json_schema (bin : String) (o : GenOptions)
    (ts : List ToolDef) (h : ts ≠ []) :
    buildGenerateCmdWithTools bin o (some ts) =
      buildGenerateCmd bin (o.withSchema (some (convert_tools_to_schema (some ts)))) ∧
    ∃ pre post,
      buildGenerateCmdWithTools bin o (some ts) =
        pre ++ ["--json-schema", Json.dumps (convert_tools_to_schema (some ts))] ++ post := by
  have hne : ts.isEmpty = false := by
    cases ts with
    | nil => exact absurd rfl h
    | cons a l => rfl
  refine ⟨by simp [buildGenerateCmdWithTools, hne], ?_⟩
  refine ⟨[bin, o.prompt] ++ tempArgs o.temperature ++ maxTokensArgs o.max_tokens,
    systemPromptArgs (pyOr o.instructions o.system_prompt)
      ++ samplingArgs o.sampling_mode ++ topKArgs o.top_k ++ topPArgs o.top_p
      ++ seedArgs o.seed ++ modelArgs (pyOr o.use_case o.model)
      ++ guardrailsArgs o.guardrails, ?_⟩
  simp [buildGenerateCmdWithTools, hne, buildGenerateCmd, GenOptions.withSchema, schemaArgs]

/-- Witness for C2: a call supplying both a schema and a tool list builds the
command from the tool-derived schema. -/
theorem c2_witness :
    [weatherTool] ≠ ([] : List ToolDef) ∧
    (buildGenerateCmdWithTools "gen"
        ((aliasSampleOpts.withSchema (some (Json.obj [("type", Json.str "object")]))))
        (some [weatherTool]) =
      buildGenerateCmd "gen"
        (((aliasSampleOpts.withSchema (some (Json.obj [("type", Json.str "object")])))).withSchema
          (some (convert_tools_to_schema (some [weatherTool])))) ∧
     ∃ pre post,
       buildGenerateCmdWithTools "gen"
          ((aliasSampleOpts.withSchema (some (Json.obj [("type", Json.str "object")]))))
          (some [weatherTool]) =
         pre ++ ["--json-schema", Json.dumps (convert_tools_to_schema (some [weatherTool]))] ++ post) :=
  ⟨by simp,
   c2_tools_drive_json_schema "gen"
     ((aliasSampleOpts.withSchema (some (Json.obj [("type", Json.str "object")]))))
     [weatherTool] (by simp)⟩

/-- C3: the streaming iterator yields, with `full_metadata=False`, exactly the
(stripped) stdout lines in order — in particular `["partial", "final"]` yields
`"partial"` then `"final"` — and with `full_metadata=True` parses each line
independently, yielding parses and silently skipping failures; once the lines
are exhausted a non-zero final exit status produces a transcription-failure
error carrying the buffered stderr text. -/
theorem c3_streaming_iterator (loads : String → Option Json)
    (lines rest : List String) (l : String) (rc : Int) (e : String) (h : rc ≠ 0) :
    result_iterator loads false lines = lines.map (fun x => StreamItem.text (pyStrip x)) ∧
    result_iterator loads false ["partial", "final"] =
      [StreamItem.text "partial", StreamItem.text "final"] ∧
    result_iterator loads true (l :: rest) =
      (match loads (pyStrip l) with
       | some v => StreamItem.json v :: result_iterator loads true rest
       | none => result_iterator loads true rest) ∧
    streamFinal rc e = some ("Transcription failed: " ++ e) ∧
    streamFinal 0 e = none := by
  refine ⟨?_, by rfl, ?_, by simp [streamFinal, h], by simp [streamFinal]⟩
  · induction lines with
    | nil => rfl
    | cons a as ih => simp [result_iterator, List.filterMap_cons] at ih ⊢; exact ih
  · simp only [result_iterator, List.filterMap_cons]
    cases loads (pyStrip l) <;> simp

/-- Witness for C3 with a parser that accepts `"good"` lines only, and a
failing final exit status. -/
theorem c3_witness :
    (1 : Int) ≠ 0 ∧
    (result_iterator loadsAsStr false ["a ", " b"] =
       List.map (fun x => StreamItem.text (pyStrip x)) ["a ", " b"] ∧
     result_iterator loadsAsStr false ["partial", "final"] =
       [StreamItem.text "partial", StreamItem.text "final"] ∧
     result_iterator loadsAsStr true ("x" :: ["y"]) =
       (match loadsAsStr (pyStrip "x") with
        | some v => StreamItem.json v :: result_iterator loadsAsStr true ["y"]
        | none => result_iterator loadsAsStr true ["y"]) ∧
     streamFinal 1 "boom" = some ("Transcription failed: " ++ "boom") ∧
     streamFinal 0 "boom" = none) :=
  ⟨by decide, c3_streaming_iterator loadsAsStr ["a ", " b"] ["y"] "x" 1 "boom" (by decide)⟩

/-- C4: on a zero-exit invocation whose stdout fails to parse as JSON,
generation with a schema returns the raw (stripped) string while synchronous
transcription with `full_metadata=True` raises a failure; when stdout parses,
both return the parsed value. -/
theorem c4_decode_asymmetry (loads : String → Option Json) (r : ProcResult)
    (h0 : r.returncode = 0) :
    (loads (pyStrip r.stdout) = none →
      generateDecode loads true r = Outcome.text (pyStrip r.stdout) ∧
      transcribeDecode loads true r =
        Outcome.runtimeError ("Failed to parse JSON output: " ++ pyStrip r.stdout)) ∧
    (∀ v, loads (pyStrip r.stdout) = some v →
      generateDecode loads true r = Outcome.json v ∧
      transcribeDecode loads true r = Outcome.json v) := by
  constructor
  · intro hv
    constructor <;> simp [generateDecode, transcribeDecode, h0, hv]
  · intro v hv
    constructor <;> simp [generateDecode, transcribeDecode, h0, hv]

/-- Witness for C4 on a run whose stdout is not JSON, under a parser rejecting
everything. -/
theorem c4_witness :
    (ProcResult.mk 0 "not json" "").returncode = 0 ∧
    ((loadsNone (pyStrip (ProcResult.mk 0 "not json" "").stdout) = none →
       generateDecode loadsNone true ⟨0, "not json", ""⟩ =
         Outcome.text (pyStrip (ProcResult.mk 0 "not json" "").stdout) ∧
       transcribeDecode loadsNone true ⟨0, "not json", ""⟩ =
         Outcome.runtimeError
           ("Failed to parse JSON output: " ++ pyStrip (ProcResult.mk 0 "not json" "").stdout)) ∧
     (∀ v, loadsNone (pyStrip (ProcResult.mk 0 "not json" "").stdout) = some v →
       generateDecode loadsNone true ⟨0, "not json", ""⟩ = Outcome.json v ∧
       transcribeDecode loadsNone true ⟨0, "not json", ""⟩ = Outcome.json v)) :=
  ⟨rfl, c4_decode_asymmetry loadsNone ⟨0, "not json", ""⟩ rfl⟩

/-- C5 counterexample: the claim is false as stated — with a cached binary
present and the Swift source absent, `_get_binary` returns the cached binary
instead of raising "source not found". -/
theorem c5_counterexample : ¬ claimC5 := by
  intro h
  obtain ⟨m, hm⟩ := (h cachedNoSourceWorld "generate").1 rfl
  simp [get_binary, cachedNoSourceWorld] at hm

/-- C5 as amended: "source not found" is raised when no source exists and no
cached binary exists; when a compilation actually runs (no sufficiently fresh
cached binary), an absent compiler raises the distinct "toolchain missing"
condition and a non-zero build raises "compilation failed" carrying the
captured compiler diagnostics. -/
theorem c5_resolver_error_conditions (w : ResolverWorld) (name : String) :
    (w.binaryExists = false → w.sourceExists = false →
      get_binary w name =
        ResolveResult.sourceNotFound ("Swift source not found: " ++ sourcePath name)) ∧
    (runsBuildStep w → w.swiftcPresent = false →
      get_binary w name =
        ResolveResult.toolchainMissing
          ("Swift compiler not found. Install Xcode command line tools: xcode-select --install")) ∧
    (runsBuildStep w → w.swiftcPresent = true → w.compileResult.returncode ≠ 0 →
      get_binary w name =
        ResolveResult.compilationFailed
          ("Failed to compile " ++ name ++ ".swift: " ++ w.compileResult.stderr)) := by
  refine ⟨fun hb hs => ?_, fun hr hc => ?_, fun hr hc hn => ?_⟩
  · simp [get_binary, compile_binary, hb, hs]
  · obtain ⟨hreach, hs, hfresh⟩ := hr
    have hgb : get_binary w name = compile_binary w name := by
      rcases hreach with hb | ⟨hs2, hm⟩
      · simp [get_binary, hb]
      · simp [get_binary, hs2, hm]
    rw [hgb]
    simp only [compile_binary, hs]
    rw [if_neg (by simp), if_neg hfresh, if_pos (by simp [hc])]
  · obtain ⟨hreach, hs, hfresh⟩ := hr
    have hgb : get_binary w name = compile_binary w name := by
      rcases hreach with hb | ⟨hs2, hm⟩
      · simp [get_binary, hb]
      · simp [get_binary, hs2, hm]
    rw [hgb]
    simp only [compile_binary, hs]
    rw [if_neg (by simp), if_neg hfresh, if_neg (by simp [hc]), if_pos hn]

/-- Witness for C5's amended statement, at a world with no cache and no
source, one with a stale cache and no compiler, and one whose build fails. -/
theorem c5_witness :
    get_binary ⟨false, 0, false, 0, true, ⟨0, "", ""⟩⟩ "generate" =
      ResolveResult.sourceNotFound ("Swift source not found: " ++ sourcePath "generate") ∧
    get_binary ⟨false, 0, true, 5, false, ⟨0, "", ""⟩⟩ "generate" =
      ResolveResult.toolchainMissing
        ("Swift compiler not found. Install Xcode command line tools: xcode-select --install") ∧
    get_binary ⟨false, 0, true, 5, true, ⟨1, "", "type error"⟩⟩ "generate" =
      ResolveResult.compilationFailed
        ("Failed to compile " ++ "generate" ++ ".swift: " ++
          (ProcResult.mk 1 "" "type error").stderr) :=
  ⟨(c5_resolver_error_conditions ⟨false, 0, false, 0, true, ⟨0, "", ""⟩⟩ "generate").1 rfl rfl,
   (c5_resolver_error_conditions ⟨false, 0, true, 5, false, ⟨0, "", ""⟩⟩ "generate").2.1
     (by unfold runsBuildStep; refine ⟨Or.inl rfl, rfl, by decide⟩) rfl,
   (c5_resolver_error_conditions ⟨false, 0, true, 5, true, ⟨1, "", "type error"⟩⟩ "generate").2.2
     (by unfold runsBuildStep; refine ⟨Or.inl rfl, rfl, by decide⟩) rfl (by decide)⟩

/-- C6 counterexample: the claim is false as stated — on the streaming path a
non-zero exit with empty stderr yields the message `"Transcription failed: "`,
not the generic `"Unknown error"` fallback the claim requires. -/
theorem c6_counterexample : ¬ claimC6 := by
  intro h
  have h2 := (h loadsNone true true ⟨1, "", ""⟩ 1 "").2 (by decide)
  simp [streamFinal] at h2

/-- C6 as amended: a non-zero exit from either binary raises a failure whose
message carries the captured stderr text when non-empty; the synchronous
generation and transcription paths substitute the generic "Unknown error"
when stderr is empty, while the streaming transcription path appends the
buffered stderr text verbatim (an empty stderr yields no generic fallback). -/
theorem c6_error_messages (loads : String → Option Json) (sg fm : Bool)
    (r : ProcResult) (rc : Int) (e : String) :
    (r.returncode ≠ 0 →
      generateDecode loads sg r =
        Outcome.runtimeError
          ("Generation failed: " ++ (if r.stderr = "" then "Unknown error" else r.stderr)) ∧
      transcribeDecode loads fm r =
        Outcome.runtimeError
          ("Transcription failed: " ++ (if r.stderr = "" then "Unknown error" else r.stderr))) ∧
    (rc ≠ 0 → streamFinal rc e = some ("Transcription failed: " ++ e)) := by
  constructor
  · intro h
    constructor <;> simp [generateDecode, transcribeDecode, h]
  · intro h
    simp [streamFinal, h]

/-- Witness for C6's amended statement at a failing run with non-empty stderr
and a failing streamed run with empty stderr. -/
theorem c6_witness :
    (ProcResult.mk 1 "" "boom").returncode ≠ 0 ∧
    (1 : Int) ≠ 0 ∧
    (generateDecode loadsNone true ⟨1, "", "boom"⟩ =
       Outcome.runtimeError
         ("Generation failed: " ++
           (if (ProcResult.mk 1 "" "boom").stderr = "" then "Unknown error"
            else (ProcResult.mk 1 "" "boom").stderr)) ∧
     transcribeDecode loadsNone true ⟨1, "", "boom"⟩ =
       Outcome.runtimeError
         ("Transcription failed: " ++
           (if (ProcResult.mk 1 "" "boom").stderr = "" then "Unknown error"
            else (ProcResult.mk 1 "" "boom").stderr))) ∧
    streamFinal 1 "" = some ("Transcription failed: " ++ "") :=
  ⟨by decide, by decide,
   (c6_error_messages loadsNone true true ⟨1, "", "boom"⟩ 1 "").1 (by decide),
   (c6_error_messages loadsNone true true ⟨1, "", "boom"⟩ 1 "").2 (by decide)⟩

/-- C7: when both a canonical option and its alias are given, the alias wins —
the command is unchanged by erasing `system_prompt` (resp. `model`), and the
`--system-prompt` (resp. `--model`) flag carries the `instructions` (resp.
`use_case`) value. -/
theorem c7_alias_precedence (bin : String) (o : GenOptions) (ins uc : String)
    (hi : o.instructions = some ins) (hine : ins ≠ "")
    (hu : o.use_case = some uc) (hune : uc ≠ "") :
    buildGenerateCmd bin o = buildGenerateCmd bin (o.withSystemPrompt none) ∧
    buildGenerateCmd bin o = buildGenerateCmd bin (o.withModel none) ∧
    (∃ pre post, buildGenerateCmd bin o = pre ++ ["--system-prompt", ins] ++ post) ∧
    (∃ pre post, buildGenerateCmd bin o = pre ++ ["--model", replaceUnderscores uc] ++ post) := by
  refine ⟨?_, ?_, ?_, ?_⟩
  · simp [buildGenerateCmd, GenOptions.withSystemPrompt, pyOr, hi, hine]
  · simp [buildGenerateCmd, GenOptions.withModel, pyOr, hu, hune]
  · refine ⟨[bin, o.prompt] ++ tempArgs o.temperature ++ maxTokensArgs o.max_tokens
      ++ schemaArgs o.schema,
      samplingArgs o.sampling_mode ++ topKArgs o.top_k ++ topPArgs o.top_p
        ++ seedArgs o.seed ++ modelArgs (pyOr o.use_case o.model)
        ++ guardrailsArgs o.guardrails, ?_⟩
    simp [buildGenerateCmd, pyOr, hi, hine, systemPromptArgs]
  · refine ⟨[bin, o.prompt] ++ tempArgs o.temperature ++ maxTokensArgs o.max_tokens
      ++ schemaArgs o.schema ++ systemPromptArgs (pyOr o.instructions o.system_prompt)
      ++ samplingArgs o.sampling_mode ++ topKArgs o.top_k ++ topPArgs o.top_p
      ++ seedArgs o.seed,
      guardrailsArgs o.guardrails, ?_⟩
    simp [buildGenerateCmd, pyOr, hu, hune, modelArgs]

/-- Witness for C7 at `system_prompt="A"`, `instructions="B"`, `model="x"`,
`use_case="y"`. -/
theorem c7_witness :
    aliasSampleOpts.instructions = some "B" ∧ "B" ≠ "" ∧
    aliasSampleOpts.use_case = some "y" ∧ "y" ≠ "" ∧
    (buildGenerateCmd "gen" aliasSampleOpts =
       buildGenerateCmd "gen" (aliasSampleOpts.withSystemPrompt none) ∧
     buildGenerateCmd "gen" aliasSampleOpts =
       buildGenerateCmd "gen" (aliasSampleOpts.withModel none) ∧
     (∃ pre post,
        buildGenerateCmd "gen" aliasSampleOpts = pre ++ ["--system-prompt", "B"] ++ post) ∧
     (∃ pre post,
        buildGenerateCmd "gen" aliasSampleOpts =
          pre ++ ["--model", replaceUnderscores "y"] ++ post)) :=
  ⟨rfl, by decide, rfl, by decide,
   c7_alias_precedence "gen" aliasSampleOpts "B" "y" rfl (by decide) rfl (by decide)⟩

/-- C8: underscore-style option values are rewritten to hyphen style in the
outgoing command — the `--sampling` value for `sampling_mode` and the
`--model` value for the resolved model both pass through the
underscore-to-hyphen rewrite, and `"top_k"` becomes `"top-k"`. -/
theorem c8_underscore_normalization (bin : String) (o : GenOptions) (m fm : String)
    (hm : o.sampling_mode = some m) (hmne : m ≠ "")
    (hfm : pyOr o.use_case o.model = some fm) (hfmne : fm ≠ "") :
    (∃ pre post, buildGenerateCmd bin o = pre ++ ["--sampling", replaceUnderscores m] ++ post) ∧
    (∃ pre post, buildGenerateCmd bin o = pre ++ ["--model", replaceUnderscores fm] ++ post) ∧
    replaceUnderscores "top_k" = "top-k" := by
  refine ⟨?_, ?_, by decide⟩
  · refine ⟨[bin, o.prompt] ++ tempArgs o.temperature ++ maxTokensArgs o.max_tokens
      ++ schemaArgs o.schema ++ systemPromptArgs (pyOr o.instructions o.system_prompt),
      topKArgs o.top_k ++ topPArgs o.top_p ++ seedArgs o.seed
        ++ modelArgs (pyOr o.use_case o.model) ++ guardrailsArgs o.guardrails, ?_⟩
    simp [buildGenerateCmd, hm, hmne, samplingArgs]
  · refine ⟨[bin, o.prompt] ++ tempArgs o.temperature ++ maxTokensArgs o.max_tokens
      ++ schemaArgs o.schema ++ systemPromptArgs (pyOr o.instructions o.system_prompt)
      ++ samplingArgs o.sampling_mode ++ topKArgs o.top_k ++ topPArgs o.top_p
      ++ seedArgs o.seed,
      guardrailsArgs o.guardrails, ?_⟩
    simp [buildGenerateCmd, hfm, hfmne, modelArgs]

/-- Witness for C8 at `sampling_mode="top_k"` and resolved model `"y"`. -/
theorem c8_witness :
    aliasSampleOpts.sampling_mode = some "top_k" ∧ "top_k" ≠ "" ∧
    pyOr aliasSampleOpts.use_case aliasSampleOpts.model = some "y" ∧ "y" ≠ "" ∧
    ((∃ pre post,
        buildGenerateCmd "gen" aliasSampleOpts =
          pre ++ ["--sampling", replaceUnderscores "top_k"] ++ post) ∧
     (∃ pre post,
        buildGenerateCmd "gen" aliasSampleOpts =
          pre ++ ["--model", replaceUnderscores "y"] ++ post) ∧
     replaceUnderscores "top_k" = "top-k") :=
  ⟨rfl, by decide, rfl, by decide,
   c8_underscore_normalization "gen" aliasSampleOpts "top_k" "y" rfl (by decide) rfl (by decide)⟩

/-- C9: a transcription call on a missing input path raises the missing-file
condition having performed only the existence check — the binary resolver is
never invoked and no process is spawned. -/
theorem c9_missing_file_checked_first (loads : String → Option Json)
    (w : TranscribeWorld) (p loc : String) (st fa re fm : Bool)
    (h : w.fileExists = false) :
    transcribe loads w p loc st fa re fm =
      ([Effect.checkExists p],
       CallReturn.value (Outcome.fileNotFoundError ("Input file not found: " ++ p))) ∧
    (∀ n, Effect.resolveBinary n ∉ (transcribe loads w p loc st fa re fm).1) ∧
    (∀ c, Effect.spawn c ∉ (transcribe loads w p loc st fa re fm).1) := by
  have he : transcribe loads w p loc st fa re fm =
      ([Effect.checkExists p],
       CallReturn.value (Outcome.fileNotFoundError ("Input file not found: " ++ p))) := by
    simp [transcribe, h]
  refine ⟨he, fun n => ?_, fun c => ?_⟩ <;> rw [he] <;> simp

/-- Witness for C9 at a world whose input file is missing. -/
theorem c9_witness :
    (TranscribeWorld.mk false cachedNoSourceWorld ⟨0, "", ""⟩ [] 0 "").fileExists = false ∧
    (transcribe loadsNone ⟨false, cachedNoSourceWorld, ⟨0, "", ""⟩, [], 0, ""⟩
        "missing.mp3" "en-US" false false false false =
      ([Effect.checkExists "missing.mp3"],
       CallReturn.value
         (Outcome.fileNotFoundError ("Input file not found: " ++ "missing.mp3"))) ∧
     (∀ n, Effect.resolveBinary n ∉
        (transcribe loadsNone ⟨false, cachedNoSourceWorld, ⟨0, "", ""⟩, [], 0, ""⟩
          "missing.mp3" "en-US" false false false false).1) ∧
     (∀ c, Effect.spawn c ∉
        (transcribe loadsNone ⟨false, cachedNoSourceWorld, ⟨0, "", ""⟩, [], 0, ""⟩
          "missing.mp3" "en-US" false false false false).1)) :=
  ⟨rfl,
   c9_missing_file_checked_first loadsNone
     ⟨false, cachedNoSourceWorld, ⟨0, "", ""⟩, [], 0, ""⟩
     "missing.mp3" "en-US" false false false false rfl⟩

/-- C10: every successfully returned value (or the text handed to the JSON
parser) is the process stdout with surrounding whitespace stripped, and every
streamed raw line is stripped before being yielded or parsed. -/
theorem c10_whitespace_stripping (loads : String → Option Json) (r : ProcResult)
    (lines : List String) (h0 : r.returncode = 0) :
    generateDecode loads false r = Outcome.text (pyStrip r.stdout) ∧
    generateDecode loads true r =
      (match loads (pyStrip r.stdout) with
       | some v => Outcome.json v
       | none => Outcome.text (pyStrip r.stdout)) ∧
    transcribeDecode loads false r = Outcome.text (pyStrip r.stdout) ∧
    transcribeDecode loads true r =
      (match loads (pyStrip r.stdout) with
       | some v => Outcome.json v
       | none => Outcome.runtimeError ("Failed to parse JSON output: " ++ pyStrip r.stdout)) ∧
    result_iterator loads false lines = lines.map (fun l => StreamItem.text (pyStrip l)) ∧
    result_iterator loads true lines =
      lines.filterMap (fun l => (loads (pyStrip l)).map StreamItem.json) := by
  refine ⟨by simp [generateDecode, h0], ?_, by simp [transcribeDecode, h0], ?_, ?_, ?_⟩
  · simp only [generateDecode, h0]
    cases loads (pyStrip r.stdout) <;> simp
  · simp only [transcribeDecode, h0]
    cases loads (pyStrip r.stdout) <;> simp
  · induction lines with
    | nil => rfl
    | cons a as ih => simp [result_iterator, List.filterMap_cons] at ih ⊢; exact ih
  · rfl

/-- Witness for C10 at a run whose stdout carries surrounding whitespace. -/
theorem c10_witness :
    (ProcResult.mk 0 "  hello\n" "").returncode = 0 ∧
    (generateDecode loadsNone false ⟨0, "  hello\n", ""⟩ =
       Outcome.text (pyStrip (ProcResult.mk 0 "  hello\n" "").stdout) ∧
     generateDecode loadsNone true ⟨0, "  hello\n", ""⟩ =
       (match loadsNone (pyStrip (ProcResult.mk 0 "  hello\n" "").stdout) with
        | some v => Outcome.json v
        | none => Outcome.text (pyStrip (ProcResult.mk 0 "  hello\n" "").stdout)) ∧
     transcribeDecode loadsNone false ⟨0, "  hello\n", ""⟩ =
       Outcome.text (pyStrip (ProcResult.mk 0 "  hello\n" "").stdout) ∧
     transcribeDecode loadsNone true ⟨0, "  hello\n", ""⟩ =
       (match loadsNone (pyStrip (ProcResult.mk 0 "  hello\n" "").stdout) with
        | some v => Outcome.json v
        | none =>
          Outcome.runtimeError
            ("Failed to parse JSON output: " ++ pyStrip (ProcResult.mk 0 "  hello\n" "").stdout)) ∧
     result_iterator loadsNone false ["hi \n"] =
       List.map (fun l => StreamItem.text (pyStrip l)) ["hi \n"] ∧
     result_iterator loadsNone true ["hi \n"] =
       List.filterMap (fun l => (loadsNone (pyStrip l)).map StreamItem.json) ["hi \n"]) :=
  ⟨rfl, c10_whitespace_stripping loadsNone ⟨0, "  hello\n", ""⟩ ["hi \n"] rfl⟩

/-- C7 counterexample: with both `system_prompt="A"` and `instructions=""`
given (and both `model="x"` and `use_case=""`), the built command uses the
canonical values `"A"` and `"x"` — the empty alias values appear nowhere —
because the code resolves aliases with Python's falsy-skipping `or`. -/
theorem c7_counterexample :
    buildGenerateCmd "gen"
        ⟨"p", none, none, none, some "A", some "", none, none, none, none,
         some "x", some "", none⟩ =
      ["gen", "p", "--system-prompt", "A", "--model", "x"] ∧
    "" ∉ buildGenerateCmd "gen"
        ⟨"p", none, none, none, some "A", some "", none, none, none, none,
         some "x", some "", none⟩ := by
  constructor
  · rfl
  · decide
